import Mathlib

/-!
Shallow embedding of the everlend/lending-contract client API
(`api/src/layout.ts`, `api/src/baseLayout.ts`, `api/src/state.ts`,
`api/src/instruction.ts`, `api/src/utils.ts`, `api/src/index.ts`).

Buffers are lists of byte values (`List Nat`, each entry `< 256` on real
inputs); machine integers are `Nat` with explicit little-endian byte
conversions.  Addresses (`PublicKey` values) are modelled by an inductive
type whose constructors mirror the address-producing operations the code
uses (`new PublicKey(bytes)`, `PublicKey.findProgramAddress`,
`PublicKey.createWithSeed`, and base58 literals); treating the derivations
as injective constructors models collision-free one-way derivation.
Fallible operations return `Except String`, carrying the source's thrown
error messages (the source's owner error interpolates the owner's JSON
after the text "Invalid owner"; we keep the stable prefix).
Network transport and transaction submission are out of scope, so a
"connection" is a pure map from address to optionally fetched account data
(the result of `connection.getAccountInfo`), and the transaction-sending
methods return the built transaction instead of submitting it.
-/

namespace Everlend

set_option autoImplicit false

/-- Little-endian byte encoding of `n` into exactly `k` bytes; models
`new u64(amount).toBuffer()` (BN `toBuffer('le', 8)`) for `k = 8`. -/
def leBytes : Nat → Nat → List Nat
  | 0, _ => []
  | k + 1, n => n % 256 :: leBytes k (n / 256)

/-- Little-endian decoding of a byte list; models `u64.fromBuffer`. -/
def leDecode (bs : List Nat) : Nat :=
  bs.foldr (fun b acc => b + 256 * acc) 0

/-- `buffer.slice(start, start + len)`: the `len` bytes at offset `start`. -/
def slice (bs : List Nat) (start len : Nat) : List Nat :=
  (bs.drop start).take len

/-- Read the unsigned little-endian 64-bit integer at byte offset `off`
(models `u64.fromBuffer` applied to an 8-byte `blob` field). -/
def readU64 (bs : List Nat) (off : Nat) : Nat :=
  leDecode (slice bs off 8)

/-- Model of `PublicKey` values.  `fromBytes` is `new PublicKey(buffer)`;
`base58` is `new PublicKey('...')`; `authority seeds=[market]` models
`PublicKey.findProgramAddress([market.toBuffer()], programId)` as used for
the market authority; `obligationAuthority` models the four-seed
`findProgramAddress([owner, market, liquidity, collateral], programId)`
call in `createObligationTx`; `createWithSeed` models
`PublicKey.createWithSeed(base, seed, programId)`.  `tokenProgram`,
`sysvarRent` and `systemProgram` are the external well-known addresses
`TOKEN_PROGRAM_ID`, `SYSVAR_RENT_PUBKEY` and `SystemProgram.programId`. -/
inductive Pubkey where
  | fromBytes (bytes : List Nat)
  | base58 (s : String)
  | authority (market : Pubkey) (programId : Pubkey)
  | obligationAuthority (owner market liquidity collateral programId : Pubkey)
  | createWithSeed (base : Pubkey) (seed : String) (programId : Pubkey)
  | tokenProgram
  | sysvarRent
  | systemProgram
deriving DecidableEq

/-- `TOKEN_PROGRAM_ID` from `@solana/spl-token`. -/
def TOKEN_PROGRAM_ID : Pubkey := Pubkey.tokenProgram

/-- `SYSVAR_RENT_PUBKEY` from `@solana/web3.js`. -/
def SYSVAR_RENT_PUBKEY : Pubkey := Pubkey.sysvarRent

/-- `SystemProgram.programId` from `@solana/web3.js`. -/
def SYSTEM_PROGRAM_ID : Pubkey := Pubkey.systemProgram

/-- `PROGRAM_ID` constant of `api/src/index.ts`. -/
def PROGRAM_ID : Pubkey :=
  Pubkey.base58 "CeGmkTwwswnRowjTFCMXf1Y5LaE3RqF6YqdmJfrQGRPb"

/-- One entry of a `TransactionInstruction`'s `keys` array. -/
structure AccountMeta where
  pubkey : Pubkey
  isSigner : Bool
  isWritable : Bool
deriving DecidableEq

/-- `TransactionInstruction`: ordered account references, program id, and
the encoded data payload. -/
structure TransactionInstruction where
  keys : List AccountMeta
  programId : Pubkey
  data : List Nat
deriving DecidableEq

/-- An instruction registry entry (`InstructionType` of `api/src/utils.ts`):
the numeric opcode `index` and the total byte span of its layout. -/
structure InstructionType where
  index : Nat
  span : Nat
deriving DecidableEq

/-- `encodeData` of `api/src/utils.ts`: allocates `type.layout.span` bytes
and encodes `{ instruction: type.index, ...fields }` through the layout.
For every layout in the registry this writes the opcode byte at offset 0
followed by the field blobs in registry order, so the payload is
`index :: fields` where `fields` is the concatenation of the field
buffers (empty for the field-less commands). -/
def encodeData (t : InstructionType) (fields : List Nat) : List Nat :=
  t.index :: fields

/-!
The instruction registry `MarketInsructionLayouts` (source spelling) of
the repository's full layout file (the layout variant declaring all eight
commands, each as `index` plus a `BufferLayout.struct` of the instruction
byte and, for the amount-carrying commands, a `uint64('amount')` blob).
-/

namespace MarketInsructionLayouts

def LiquidityDeposit : InstructionType := { index := 5, span := 9 }

def LiquidityWithdraw : InstructionType := { index := 6, span := 9 }

def CreateObligation : InstructionType := { index := 7, span := 1 }

def ObligationCollateralDeposit : InstructionType := { index := 8, span := 9 }

def ObligationCollateralWithdraw : InstructionType := { index := 9, span := 9 }

def ObligationLiquidityBorrow : InstructionType := { index := 10, span := 9 }

def ObligationLiquidityRepay : InstructionType := { index := 11, span := 9 }

def LiquidateObligation : InstructionType := { index := 12, span := 1 }

end MarketInsructionLayouts

/-- `MarketLayout` of `api/src/layout.ts`: field byte widths in order
(`version:u8`, `owner:blob32`, `liquidity_tokens:blob8`,
`collateral_tokens:blob8`). -/
def MarketLayout.fieldSpans : List Nat := [1, 32, 8, 8]

/-- `MarketLayout.span` (sum of field widths). -/
def MarketLayout.span : Nat := MarketLayout.fieldSpans.sum

/-- `LiquidityLayout` of `api/src/layout.ts`: `version:u8`, `status:u8`,
`market`, `token_mint`, `token_account`, `pool_mint` (blob32 each). -/
def LiquidityLayout.fieldSpans : List Nat := [1, 1, 32, 32, 32, 32]

/-- `LiquidityLayout.span`. -/
def LiquidityLayout.span : Nat := LiquidityLayout.fieldSpans.sum

/-- `CollateralLayout` of `api/src/layout.ts`: `version:u8`, `status:u8`,
`market`, `token_mint`, `token_account` (blob32 each), `ratio_initial`,
`ratio_healthy` (blob8 each). -/
def CollateralLayout.fieldSpans : List Nat := [1, 1, 32, 32, 32, 8, 8]

/-- `CollateralLayout.span`. -/
def CollateralLayout.span : Nat := CollateralLayout.fieldSpans.sum

/-- `ObligationLayout` (declared in the repository's full layout variant;
the file `api/src/layout.ts` in this snapshot omits it even though
`state.ts` and `index.ts` import it): `version:u8`, `market`, `owner`,
`liquidity`, `collateral` (blob32 each), `amount_liquidity_borrowed`,
`amount_collateral_deposited` (blob8 each). -/
def ObligationLayout.fieldSpans : List Nat := [1, 32, 32, 32, 32, 8, 8]

/-- `ObligationLayout.span`. -/
def ObligationLayout.span : Nat := ObligationLayout.fieldSpans.sum

/-- Decoded `Market` entity (`api/src/state.ts`).  The `u64` counts are
decoded to `Nat`. -/
structure Market where
  version : Nat
  owner : Pubkey
  liquidityTokens : Nat
  collateralTokens : Nat
deriving DecidableEq

/-- `Market.from` of `api/src/state.ts`: destructure `MarketLayout.decode`
of the buffer (fields at the offsets obtained by summing the preceding
widths of `MarketLayout.fieldSpans`). -/
def Market.fromBuffer (buffer : List Nat) : Market :=
  { version := buffer.getD 0 0
    owner := Pubkey.fromBytes (slice buffer 1 32)
    liquidityTokens := readU64 buffer 33
    collateralTokens := readU64 buffer 41 }

/-- Decoded `Liquidity` entity (`api/src/state.ts`).  The source writes
`status: status as LiquidityStatus`, a TypeScript type assertion with no
runtime effect, so the field holds the raw status byte unchanged. -/
structure Liquidity where
  version : Nat
  status : Nat
  market : Pubkey
  tokenMint : Pubkey
  tokenAccount : Pubkey
  poolMint : Pubkey
deriving DecidableEq

/-- `Liquidity.from` of `api/src/state.ts`. -/
def Liquidity.fromBuffer (buffer : List Nat) : Liquidity :=
  { version := buffer.getD 0 0
    status := buffer.getD 1 0
    market := Pubkey.fromBytes (slice buffer 2 32)
    tokenMint := Pubkey.fromBytes (slice buffer 34 32)
    tokenAccount := Pubkey.fromBytes (slice buffer 66 32)
    poolMint := Pubkey.fromBytes (slice buffer 98 32) }

/-- Decoded `Collateral` entity (`api/src/state.ts`); as for `Liquidity`,
the `status as CollateralStatus` cast keeps the raw byte. -/
structure Collateral where
  version : Nat
  status : Nat
  market : Pubkey
  tokenMint : Pubkey
  tokenAccount : Pubkey
  ratioInitial : Nat
  ratioHealthy : Nat
deriving DecidableEq

/-- `Collateral.from` of `api/src/state.ts`. -/
def Collateral.fromBuffer (buffer : List Nat) : Collateral :=
  { version := buffer.getD 0 0
    status := buffer.getD 1 0
    market := Pubkey.fromBytes (slice buffer 2 32)
    tokenMint := Pubkey.fromBytes (slice buffer 34 32)
    tokenAccount := Pubkey.fromBytes (slice buffer 66 32)
    ratioInitial := readU64 buffer 98
    ratioHealthy := readU64 buffer 106 }

/-- Decoded `Obligation` entity (`api/src/state.ts`). -/
structure Obligation where
  version : Nat
  market : Pubkey
  owner : Pubkey
  liquidity : Pubkey
  collateral : Pubkey
  amountLiquidityBorrowed : Nat
  amountCollateralDeposited : Nat
deriving DecidableEq

/-- `Obligation.from` of `api/src/state.ts`. -/
def Obligation.fromBuffer (buffer : List Nat) : Obligation :=
  { version := buffer.getD 0 0
    market := Pubkey.fromBytes (slice buffer 1 32)
    owner := Pubkey.fromBytes (slice buffer 33 32)
    liquidity := Pubkey.fromBytes (slice buffer 65 32)
    collateral := Pubkey.fromBytes (slice buffer 97 32)
    amountLiquidityBorrowed := readU64 buffer 129
    amountCollateralDeposited := readU64 buffer 137 }

/-- `LiquidityDepositParams` of `api/src/instruction.ts`. -/
structure LiquidityDepositParams where
  programId : Pubkey
  market : Pubkey
  liquidity : Pubkey
  source : Pubkey
  destination : Pubkey
  tokenAccount : Pubkey
  poolMint : Pubkey
  marketAuthority : Pubkey
  userTransferAuthority : Pubkey
  amount : Nat
deriving DecidableEq

/-- `LiquidityWithdrawParams` of `api/src/instruction.ts` (same field set
as the deposit parameters). -/
structure LiquidityWithdrawParams where
  programId : Pubkey
  market : Pubkey
  liquidity : Pubkey
  source : Pubkey
  destination : Pubkey
  tokenAccount : Pubkey
  poolMint : Pubkey
  marketAuthority : Pubkey
  userTransferAuthority : Pubkey
  amount : Nat
deriving DecidableEq

/-- `CreateObligationParams` of `api/src/instruction.ts`. -/
structure CreateObligationParams where
  programId : Pubkey
  market : Pubkey
  obligation : Pubkey
  liquidity : Pubkey
  collateral : Pubkey
  obligationAuthority : Pubkey
  owner : Pubkey
deriving DecidableEq

/-- `ObligationCollateralDepositParams` of `api/src/instruction.ts`. -/
structure ObligationCollateralDepositParams where
  programId : Pubkey
  market : Pubkey
  obligation : Pubkey
  collateral : Pubkey
  source : Pubkey
  collateralTokenAccount : Pubkey
  userTransferAuthority : Pubkey
  amount : Nat
deriving DecidableEq

/-- `ObligationCollateralWithdrawParams` of `api/src/instruction.ts`. -/
structure ObligationCollateralWithdrawParams where
  programId : Pubkey
  market : Pubkey
  obligation : Pubkey
  collateral : Pubkey
  destination : Pubkey
  collateralTokenAccount : Pubkey
  obligationOwner : Pubkey
  marketAuthority : Pubkey
  amount : Nat
deriving DecidableEq

/-- `ObligationLiquidityBorrowParams` of `api/src/instruction.ts`. -/
structure ObligationLiquidityBorrowParams where
  programId : Pubkey
  market : Pubkey
  obligation : Pubkey
  liquidity : Pubkey
  collateral : Pubkey
  destination : Pubkey
  liquidityTokenAccount : Pubkey
  obligationOwner : Pubkey
  marketAuthority : Pubkey
  amount : Nat
deriving DecidableEq

/-- `ObligationLiquidityRepayParams` of `api/src/instruction.ts`. -/
structure ObligationLiquidityRepayParams where
  programId : Pubkey
  market : Pubkey
  obligation : Pubkey
  liquidity : Pubkey
  source : Pubkey
  liquidityTokenAccount : Pubkey
  userTransferAuthority : Pubkey
  amount : Nat
deriving DecidableEq

/-- Parameters passed by `LendingMarket.liquidateObligationTx`
(`api/src/index.ts`) to the liquidate-obligation encoder. -/
structure LiquidateObligationParams where
  programId : Pubkey
  market : Pubkey
  obligation : Pubkey
  source : Pubkey
  destination : Pubkey
  liquidity : Pubkey
  collateral : Pubkey
  liquidityTokenAccount : Pubkey
  collateralTokenAccount : Pubkey
  userTransferAuthority : Pubkey
  marketAuthority : Pubkey
  liquidityOracle : Pubkey
  collateralOracle : Pubkey
deriving DecidableEq

namespace Instruction

/-- `liquidityDeposit` of `api/src/instruction.ts`: payload is
`encodeData(LiquidityDeposit, { amount: u64LE })` and the keys array is
the source's literal nine-entry list with its signer/writable flags. -/
def liquidityDeposit (p : LiquidityDepositParams) : TransactionInstruction :=
  { keys :=
      [ { pubkey := p.liquidity, isSigner := false, isWritable := false }
      , { pubkey := p.source, isSigner := false, isWritable := true }
      , { pubkey := p.destination, isSigner := false, isWritable := true }
      , { pubkey := p.tokenAccount, isSigner := false, isWritable := true }
      , { pubkey := p.poolMint, isSigner := false, isWritable := true }
      , { pubkey := p.market, isSigner := false, isWritable := false }
      , { pubkey := p.marketAuthority, isSigner := false, isWritable := false }
      , { pubkey := p.userTransferAuthority, isSigner := true, isWritable := false }
      , { pubkey := TOKEN_PROGRAM_ID, isSigner := false, isWritable := false } ]
    programId := p.programId
    data := encodeData MarketInsructionLayouts.LiquidityDeposit (leBytes 8 p.amount) }

/-- `liquidityWithdraw` of `api/src/instruction.ts`. -/
def liquidityWithdraw (p : LiquidityWithdrawParams) : TransactionInstruction :=
  { keys :=
      [ { pubkey := p.liquidity, isSigner := false, isWritable := false }
      , { pubkey := p.source, isSigner := false, isWritable := true }
      , { pubkey := p.destination, isSigner := false, isWritable := true }
      , { pubkey := p.tokenAccount, isSigner := false, isWritable := true }
      , { pubkey := p.poolMint, isSigner := false, isWritable := true }
      , { pubkey := p.market, isSigner := false, isWritable := false }
      , { pubkey := p.marketAuthority, isSigner := false, isWritable := false }
      , { pubkey := p.userTransferAuthority, isSigner := true, isWritable := false }
      , { pubkey := TOKEN_PROGRAM_ID, isSigner := false, isWritable := false } ]
    programId := p.programId
    data := encodeData MarketInsructionLayouts.LiquidityWithdraw (leBytes 8 p.amount) }

/-- `createObligation` of `api/src/instruction.ts` (no scalar fields). -/
def createObligation (p : CreateObligationParams) : TransactionInstruction :=
  { keys :=
      [ { pubkey := p.obligation, isSigner := false, isWritable := true }
      , { pubkey := p.liquidity, isSigner := false, isWritable := false }
      , { pubkey := p.collateral, isSigner := false, isWritable := false }
      , { pubkey := p.market, isSigner := false, isWritable := false }
      , { pubkey := p.obligationAuthority, isSigner := false, isWritable := false }
      , { pubkey := p.owner, isSigner := true, isWritable := false }
      , { pubkey := SYSVAR_RENT_PUBKEY, isSigner := false, isWritable := false }
      , { pubkey := SYSTEM_PROGRAM_ID, isSigner := false, isWritable := false } ]
    programId := p.programId
    data := encodeData MarketInsructionLayouts.CreateObligation [] }

/-- `obligationCollateralDeposit` of `api/src/instruction.ts`. -/
def obligationCollateralDeposit (p : ObligationCollateralDepositParams) :
    TransactionInstruction :=
  { keys :=
      [ { pubkey := p.obligation, isSigner := false, isWritable := true }
      , { pubkey := p.collateral, isSigner := false, isWritable := false }
      , { pubkey := p.source, isSigner := false, isWritable := true }
      , { pubkey := p.collateralTokenAccount, isSigner := false, isWritable := true }
      , { pubkey := p.market, isSigner := false, isWritable := false }
      , { pubkey := p.userTransferAuthority, isSigner := true, isWritable := false }
      , { pubkey := TOKEN_PROGRAM_ID, isSigner := false, isWritable := false } ]
    programId := p.programId
    data := encodeData MarketInsructionLayouts.ObligationCollateralDeposit
      (leBytes 8 p.amount) }

/-- `obligationCollateralWithdraw` of `api/src/instruction.ts`. -/
def obligationCollateralWithdraw (p : ObligationCollateralWithdrawParams) :
    TransactionInstruction :=
  { keys :=
      [ { pubkey := p.obligation, isSigner := false, isWritable := true }
      , { pubkey := p.collateral, isSigner := false, isWritable := false }
      , { pubkey := p.destination, isSigner := false, isWritable := true }
      , { pubkey := p.collateralTokenAccount, isSigner := false, isWritable := true }
      , { pubkey := p.market, isSigner := false, isWritable := false }
      , { pubkey := p.obligationOwner, isSigner := true, isWritable := false }
      , { pubkey := p.marketAuthority, isSigner := false, isWritable := false }
      , { pubkey := TOKEN_PROGRAM_ID, isSigner := false, isWritable := false } ]
    programId := p.programId
    data := encodeData MarketInsructionLayouts.ObligationCollateralWithdraw
      (leBytes 8 p.amount) }

/-- `obligationLiquidityBorrow` of `api/src/instruction.ts`. -/
def obligationLiquidityBorrow (p : ObligationLiquidityBorrowParams) :
    TransactionInstruction :=
  { keys :=
      [ { pubkey := p.obligation, isSigner := false, isWritable := true }
      , { pubkey := p.liquidity, isSigner := false, isWritable := true }
      , { pubkey := p.collateral, isSigner := false, isWritable := false }
      , { pubkey := p.destination, isSigner := false, isWritable := true }
      , { pubkey := p.liquidityTokenAccount, isSigner := false, isWritable := true }
      , { pubkey := p.market, isSigner := false, isWritable := false }
      , { pubkey := p.obligationOwner, isSigner := true, isWritable := false }
      , { pubkey := p.marketAuthority, isSigner := false, isWritable := false }
      , { pubkey := TOKEN_PROGRAM_ID, isSigner := false, isWritable := false } ]
    programId := p.programId
    data := encodeData MarketInsructionLayouts.ObligationLiquidityBorrow
      (leBytes 8 p.amount) }

/-- `obligationLiquidityRepay` of `api/src/instruction.ts`. -/
def obligationLiquidityRepay (p : ObligationLiquidityRepayParams) :
    TransactionInstruction :=
  { keys :=
      [ { pubkey := p.obligation, isSigner := false, isWritable := true }
      , { pubkey := p.liquidity, isSigner := false, isWritable := true }
      , { pubkey := p.source, isSigner := false, isWritable := true }
      , { pubkey := p.liquidityTokenAccount, isSigner := false, isWritable := true }
      , { pubkey := p.market, isSigner := false, isWritable := false }
      , { pubkey := p.userTransferAuthority, isSigner := true, isWritable := false }
      , { pubkey := TOKEN_PROGRAM_ID, isSigner := false, isWritable := false } ]
    programId := p.programId
    data := encodeData MarketInsructionLayouts.ObligationLiquidityRepay
      (leBytes 8 p.amount) }

/-- Modelled from the spec: the `liquidateObligation` encoder function is
missing from the snapshot's `api/src/instruction.ts` (only its caller
`LendingMarket.liquidateObligationTx` in `api/src/index.ts` and its
registry entry `MarketInsructionLayouts.LiquidateObligation` exist).
Per the spec's Instruction Encoder contract, the payload is
`opcode:u8 ++ field bytes in registry order` (this command has no scalar
fields, so the payload is the single opcode byte 12) and the payload is
paired with an ordered account-reference list built from the caller's
accounts with signer/writable flags; only the exact order and flags
beyond the opcode and non-emptiness are modelled here. -/
def liquidateObligation (p : LiquidateObligationParams) : TransactionInstruction :=
  { keys :=
      [ { pubkey := p.obligation, isSigner := false, isWritable := true }
      , { pubkey := p.liquidity, isSigner := false, isWritable := true }
      , { pubkey := p.collateral, isSigner := false, isWritable := true }
      , { pubkey := p.source, isSigner := false, isWritable := true }
      , { pubkey := p.destination, isSigner := false, isWritable := true }
      , { pubkey := p.liquidityTokenAccount, isSigner := false, isWritable := true }
      , { pubkey := p.collateralTokenAccount, isSigner := false, isWritable := true }
      , { pubkey := p.market, isSigner := false, isWritable := false }
      , { pubkey := p.marketAuthority, isSigner := false, isWritable := false }
      , { pubkey := p.liquidityOracle, isSigner := false, isWritable := false }
      , { pubkey := p.collateralOracle, isSigner := false, isWritable := false }
      , { pubkey := p.userTransferAuthority, isSigner := true, isWritable := false }
      , { pubkey := TOKEN_PROGRAM_ID, isSigner := false, isWritable := false } ]
    programId := p.programId
    data := encodeData MarketInsructionLayouts.LiquidateObligation [] }

end Instruction

/-- A fetched account: raw data bytes plus the on-ledger owner identity
(the fields of `connection.getAccountInfo`'s result that the code reads). -/
structure AccountInfo where
  data : List Nat
  owner : Pubkey

/-- The account-fetch collaborator: `connection.getAccountInfo` as a pure
map from address to optionally present account. -/
def Connection : Type := Pubkey → Option AccountInfo

/-- The `LendingMarket` class state (`api/src/index.ts`): connection,
market address, program id, and the optional payer passed to the
constructor. -/
structure LendingMarket where
  connection : Connection
  pubkey : Pubkey
  programId : Pubkey
  payer : Option Pubkey

/-- `LendingMarket.init`: constructs a market bound to `PROGRAM_ID`. -/
def LendingMarket.init (connection : Connection) (pubkey : Pubkey)
    (payer : Option Pubkey) : LendingMarket :=
  { connection := connection, pubkey := pubkey, programId := PROGRAM_ID
    payer := payer }

/-- The `payer` getter: throws `'Payer not specified'` when the market was
constructed without a payer. -/
def LendingMarket.getPayer (lm : LendingMarket) : Except String Pubkey :=
  match lm.payer with
  | none => Except.error "Payer not specified"
  | some p => Except.ok p

/-- `getOwnedAccountInfo` of `api/src/index.ts`: fetch the account, throw
`'Failed to find account'` when absent, then throw the owner error when
the account's owner differs from the program id (the source message
interpolates the owner's JSON after the prefix kept here). -/
def LendingMarket.getOwnedAccountInfo (lm : LendingMarket) (pubkey : Pubkey) :
    Except String AccountInfo :=
  match lm.connection pubkey with
  | none => Except.error "Failed to find account"
  | some info =>
      if info.owner = lm.programId then Except.ok info
      else Except.error "Invalid owner"

/-- `getMarketInfo`: owned fetch of the market account, then the span
check (`'Invalid market size'`), then `Market.from` (the source also
spreads in the echoed `pubkey`, omitted from the entity here). -/
def LendingMarket.getMarketInfo (lm : LendingMarket) : Except String Market := do
  let info ← lm.getOwnedAccountInfo lm.pubkey
  if info.data.length ≠ MarketLayout.span then
    Except.error "Invalid market size"
  else
    Except.ok (Market.fromBuffer info.data)

/-- `getLiquidityInfo`: owned fetch, span check
(`'Invalid liquidity size'`), then `Liquidity.from`. -/
def LendingMarket.getLiquidityInfo (lm : LendingMarket) (liquidityPubkey : Pubkey) :
    Except String Liquidity := do
  let info ← lm.getOwnedAccountInfo liquidityPubkey
  if info.data.length ≠ LiquidityLayout.span then
    Except.error "Invalid liquidity size"
  else
    Except.ok (Liquidity.fromBuffer info.data)

/-- `getCollateralInfo`: owned fetch, span check
(`'Invalid collateral size'`), then `Collateral.from`. -/
def LendingMarket.getCollateralInfo (lm : LendingMarket) (collateralPubkey : Pubkey) :
    Except String Collateral := do
  let info ← lm.getOwnedAccountInfo collateralPubkey
  if info.data.length ≠ CollateralLayout.span then
    Except.error "Invalid collateral size"
  else
    Except.ok (Collateral.fromBuffer info.data)

/-- `getObligationInfo`: owned fetch, span check
(`'Invalid obligation size'`), then `Obligation.from`. -/
def LendingMarket.getObligationInfo (lm : LendingMarket) (obligatioPubkey : Pubkey) :
    Except String Obligation := do
  let info ← lm.getOwnedAccountInfo obligatioPubkey
  if info.data.length ≠ ObligationLayout.span then
    Except.error "Invalid obligation size"
  else
    Except.ok (Obligation.fromBuffer info.data)

/-- BN.js `toNumber()` as called on the decoded `u64` counts: it asserts
that the value fits in 53 bits (the JavaScript safe-integer range) and
throws `'Number can only safely store up to 53 bits'` otherwise. -/
def bnToNumber (n : Nat) : Except String Nat :=
  if n < 2 ^ 53 then Except.ok n
  else Except.error "Number can only safely store up to 53 bits"

/-- The `[...Array(n).keys()]` index list: JavaScript array lengths must
be below `2 ^ 32`, so `Array(n)` throws `RangeError: Invalid array
length` for `n ≥ 2 ^ 32`; otherwise this is the index list
`0 .. n - 1`. -/
def jsArrayRange (n : Nat) : Except String (List Nat) :=
  if n < 2 ^ 32 then Except.ok (List.range n)
  else Except.error "Invalid array length"

/-- The address-derivation step of `getLiquidityTokens`
(`api/src/index.ts` lines 56-68): decode the market, derive the market
authority `findProgramAddress([this.pubkey.toBuffer()], this.programId)`,
convert the decoded `u64` count with BN `toNumber()` (assertion failure
at and above `2 ^ 53`), build the `[...Array(count).keys()]` index list
(RangeError at and above `2 ^ 32`), and map index
`0 .. liquidityTokens - 1` to
`createWithSeed(marketAuthority, 'liquidity' + index, this.programId)`. -/
def LendingMarket.getLiquidityTokenPubkeys (lm : LendingMarket) :
    Except String (List Pubkey) := do
  let market ← lm.getMarketInfo
  let marketAuthority := Pubkey.authority lm.pubkey lm.programId
  let count ← bnToNumber market.liquidityTokens
  let indices ← jsArrayRange count
  Except.ok (indices.map fun index =>
    Pubkey.createWithSeed marketAuthority ("liquidity" ++ toString index) lm.programId)

/-- `getLiquidityTokens`: resolve each derived liquidity pool address with
`getLiquidityInfo`. -/
def LendingMarket.getLiquidityTokens (lm : LendingMarket) :
    Except String (List Liquidity) := do
  let pubkeys ← lm.getLiquidityTokenPubkeys
  pubkeys.mapM lm.getLiquidityInfo

/-- The address-derivation step of `getCollateralTokens`
(`api/src/index.ts` lines 74-86), seeding with `'collateral' + index`;
the count conversion fails exactly as in the liquidity enumeration. -/
def LendingMarket.getCollateralTokenPubkeys (lm : LendingMarket) :
    Except String (List Pubkey) := do
  let market ← lm.getMarketInfo
  let marketAuthority := Pubkey.authority lm.pubkey lm.programId
  let count ← bnToNumber market.collateralTokens
  let indices ← jsArrayRange count
  Except.ok (indices.map fun index =>
    Pubkey.createWithSeed marketAuthority ("collateral" ++ toString index) lm.programId)

/-- `getCollateralTokens`: resolve each derived collateral pool address
with `getCollateralInfo`. -/
def LendingMarket.getCollateralTokens (lm : LendingMarket) :
    Except String (List Collateral) := do
  let pubkeys ← lm.getCollateralTokenPubkeys
  pubkeys.mapM lm.getCollateralInfo

/-- `getMintDecimals`: fetch the mint account and read
`MintLayout.decode(data).decimals` (the `u8` at byte offset 44 of the SPL
mint layout).  The source performs no null check on the fetch result, so
a missing mint surfaces as a thrown TypeError, modelled as an error. -/
def LendingMarket.getMintDecimals (lm : LendingMarket) (pubkey : Pubkey) :
    Except String Nat :=
  match lm.connection pubkey with
  | none => Except.error "Cannot read mint account"
  | some info => Except.ok (info.data.getD 44 0)

/-- `liquidityDepositTx`: decode the liquidity record, derive the market
authority, scale the UI amount by `10 ^ decimals` of the liquidity token
mint (the source computes this in JavaScript floating point; the scaling
is kept exact on naturals here), and build the one-instruction
transaction. -/
def LendingMarket.liquidityDepositTx (lm : LendingMarket)
    (liquidityPubkey : Pubkey) (uiAmount : Nat) (source destination : Pubkey)
    (userTransferAuthority : Pubkey) :
    Except String (List TransactionInstruction) := do
  let liquidity ← lm.getLiquidityInfo liquidityPubkey
  let marketAuthority := Pubkey.authority lm.pubkey lm.programId
  let decimals ← lm.getMintDecimals liquidity.tokenMint
  let amount := uiAmount * 10 ^ decimals
  Except.ok
    [ Instruction.liquidityDeposit
        { programId := lm.programId
          market := lm.pubkey
          liquidity := liquidityPubkey
          source := source
          destination := destination
          tokenAccount := liquidity.tokenAccount
          poolMint := liquidity.poolMint
          marketAuthority := marketAuthority
          userTransferAuthority := userTransferAuthority
          amount := amount } ]

/-- `liquidityDeposit` (the sending wrapper): the call
`this.liquidityDepositTx(..., this.payer.publicKey)` evaluates the payer
getter while building the argument list, so a missing payer throws before
the transaction-building body runs; transaction submission itself is out
of scope and the built transaction is returned. -/
def LendingMarket.liquidityDeposit (lm : LendingMarket)
    (liquidityPubkey : Pubkey) (uiAmount : Nat) (source destination : Pubkey) :
    Except String (List TransactionInstruction) := do
  let payerPubkey ← lm.getPayer
  lm.liquidityDepositTx liquidityPubkey uiAmount source destination payerPubkey

/-- `createObligationTx`: derive the obligation authority from the four
seeds `[owner, market, liquidity, collateral]`, place the obligation at
`createWithSeed(obligationAuthority, 'obligation', programId)`, and build
the one-instruction transaction together with the derived address. -/
def LendingMarket.createObligationTx (lm : LendingMarket)
    (liquidityPubkey collateralPubkey owner : Pubkey) :
    List TransactionInstruction × Pubkey :=
  let obligationAuthority :=
    Pubkey.obligationAuthority owner lm.pubkey liquidityPubkey collateralPubkey
      lm.programId
  let obligationPubkey :=
    Pubkey.createWithSeed obligationAuthority "obligation" lm.programId
  ( [ Instruction.createObligation
        { programId := lm.programId
          market := lm.pubkey
          obligation := obligationPubkey
          liquidity := liquidityPubkey
          collateral := collateralPubkey
          obligationAuthority := obligationAuthority
          owner := owner } ]
  , obligationPubkey )

/-- `createObligation` (the sending wrapper): the default parameter
`payer = this.payer` evaluates the payer getter on entry when the caller
omits the payer, so a missing payer throws before any instruction is
built; returns the derived obligation address. -/
def LendingMarket.createObligation (lm : LendingMarket)
    (liquidityPubkey collateralPubkey : Pubkey) : Except String Pubkey := do
  let payerPubkey ← lm.getPayer
  Except.ok (lm.createObligationTx liquidityPubkey collateralPubkey payerPubkey).2

/-- `leBytes k n` always produces exactly `k` bytes. -/
theorem length_leBytes (k : Nat) : ∀ n : Nat, (leBytes k n).length = k := by
  induction k with
  | zero => intro n; rfl
  | succ k ih => intro n; simp [leBytes, ih]

/-- C1: the liquidity-deposit instruction's account-reference list has
exactly 9 entries in the fixed order [liquidity, source, destination,
tokenAccount, poolMint, market, marketAuthority, userTransferAuthority,
token program]; only the userTransferAuthority entry carries the signer
flag and exactly the source, destination, tokenAccount and poolMint
entries carry the writable flag, for every choice of input addresses and
amount (the flag patterns are literally constant in the parameters). -/
theorem liquidityDeposit_keys_fixed_order (p : LiquidityDepositParams) :
    (Instruction.liquidityDeposit p).keys =
      [ { pubkey := p.liquidity, isSigner := false, isWritable := false }
      , { pubkey := p.source, isSigner := false, isWritable := true }
      , { pubkey := p.destination, isSigner := false, isWritable := true }
      , { pubkey := p.tokenAccount, isSigner := false, isWritable := true }
      , { pubkey := p.poolMint, isSigner := false, isWritable := true }
      , { pubkey := p.market, isSigner := false, isWritable := false }
      , { pubkey := p.marketAuthority, isSigner := false, isWritable := false }
      , { pubkey := p.userTransferAuthority, isSigner := true, isWritable := false }
      , { pubkey := TOKEN_PROGRAM_ID, isSigner := false, isWritable := false } ]
    ∧ (Instruction.liquidityDeposit p).keys.length = 9
    ∧ (Instruction.liquidityDeposit p).keys.map (fun meta => meta.isSigner) =
        [false, false, false, false, false, false, false, true, false]
    ∧ (Instruction.liquidityDeposit p).keys.map (fun meta => meta.isWritable) =
        [false, true, true, true, true, false, false, false, false] :=
  ⟨rfl, rfl, rfl, rfl⟩

/-- C2: for every 64-bit amount the LiquidityDeposit payload is exactly
9 bytes, the registry opcode (5) followed by the amount as 8 little-endian
bytes; in particular the amount 5000000 encodes to the golden byte
sequence `[0x40, 0x4B, 0x4C, 0, 0, 0, 0, 0]`. -/
theorem liquidityDeposit_payload_encoding (p : LiquidityDepositParams)
    (h : p.amount < 2 ^ 64) :
    (Instruction.liquidityDeposit p).data =
      MarketInsructionLayouts.LiquidityDeposit.index :: leBytes 8 p.amount
    ∧ (Instruction.liquidityDeposit p).data.length = 9
    ∧ (Instruction.liquidityDeposit p).data.head? = some 5
    ∧ leBytes 8 5000000 = [64, 75, 76, 0, 0, 0, 0, 0] := by
  refine ⟨rfl, ?_, rfl, by decide⟩
  simp [Instruction.liquidityDeposit, encodeData, length_leBytes]

/-- Witness for C2 at amount 5000000. -/
theorem liquidityDeposit_payload_encoding_witness :
    5000000 < 2 ^ 64 ∧
    (Instruction.liquidityDeposit
      { programId := PROGRAM_ID
        market := Pubkey.base58 "market"
        liquidity := Pubkey.base58 "liquidity"
        source := Pubkey.base58 "source"
        destination := Pubkey.base58 "destination"
        tokenAccount := Pubkey.base58 "tokenAccount"
        poolMint := Pubkey.base58 "poolMint"
        marketAuthority := Pubkey.base58 "marketAuthority"
        userTransferAuthority := Pubkey.base58 "userTransferAuthority"
        amount := 5000000 }).data =
      MarketInsructionLayouts.LiquidityDeposit.index :: leBytes 8 5000000 :=
  ⟨by decide, (liquidityDeposit_payload_encoding _ (by decide)).1⟩

/-- C7: the liquidate-obligation encoding path produces an instruction
whose payload begins with the registry's LiquidateObligation opcode (12)
and whose account list is populated, for every set of input accounts.
The encoder itself is modelled from the spec (see
`Instruction.liquidateObligation`), since only its caller and registry
entry are present in the snapshot. -/
theorem liquidateObligation_supported (p : LiquidateObligationParams) :
    (Instruction.liquidateObligation p).data.head? =
      some MarketInsructionLayouts.LiquidateObligation.index
    ∧ (Instruction.liquidateObligation p).data = [12]
    ∧ (Instruction.liquidateObligation p).keys ≠ [] :=
  ⟨rfl, rfl, by simp [Instruction.liquidateObligation]⟩

/-- C9: each of the seven encoder functions of `api/src/instruction.ts`
marks exactly one account reference as a signer (the user transfer
authority or the obligation owner), for every choice of inputs. -/
theorem encoders_single_signer :
    (∀ p : LiquidityDepositParams,
      (Instruction.liquidityDeposit p).keys.countP (fun meta => meta.isSigner) = 1)
    ∧ (∀ p : LiquidityWithdrawParams,
      (Instruction.liquidityWithdraw p).keys.countP (fun meta => meta.isSigner) = 1)
    ∧ (∀ p : CreateObligationParams,
      (Instruction.createObligation p).keys.countP (fun meta => meta.isSigner) = 1)
    ∧ (∀ p : ObligationCollateralDepositParams,
      (Instruction.obligationCollateralDeposit p).keys.countP
        (fun meta => meta.isSigner) = 1)
    ∧ (∀ p : ObligationCollateralWithdrawParams,
      (Instruction.obligationCollateralWithdraw p).keys.countP
        (fun meta => meta.isSigner) = 1)
    ∧ (∀ p : ObligationLiquidityBorrowParams,
      (Instruction.obligationLiquidityBorrow p).keys.countP
        (fun meta => meta.isSigner) = 1)
    ∧ (∀ p : ObligationLiquidityRepayParams,
      (Instruction.obligationLiquidityRepay p).keys.countP
        (fun meta => meta.isSigner) = 1) :=
  ⟨fun _ => rfl, fun _ => rfl, fun _ => rfl, fun _ => rfl, fun _ => rfl,
    fun _ => rfl, fun _ => rfl⟩

/-- C10: a `LendingMarket` constructed without a payer behaves identically
to one with a payer on every read-only decode operation, while the
transaction-sending operations that default to the stored payer fail with
`'Payer not specified'` for every connection state — in particular even
when the referenced accounts do not exist, showing the failure happens
before any account is fetched or any instruction is built. -/
theorem payer_optional_behavior (connection : Connection)
    (pubkey programId payerPk liquidityPubkey collateralPubkey obligationPubkey
      source destination : Pubkey) (uiAmount : Nat) :
    (LendingMarket.getMarketInfo ⟨connection, pubkey, programId, none⟩ =
      LendingMarket.getMarketInfo ⟨connection, pubkey, programId, some payerPk⟩)
    ∧ (LendingMarket.getLiquidityInfo ⟨connection, pubkey, programId, none⟩
        liquidityPubkey =
      LendingMarket.getLiquidityInfo ⟨connection, pubkey, programId, some payerPk⟩
        liquidityPubkey)
    ∧ (LendingMarket.getCollateralInfo ⟨connection, pubkey, programId, none⟩
        collateralPubkey =
      LendingMarket.getCollateralInfo ⟨connection, pubkey, programId, some payerPk⟩
        collateralPubkey)
    ∧ (LendingMarket.getObligationInfo ⟨connection, pubkey, programId, none⟩
        obligationPubkey =
      LendingMarket.getObligationInfo ⟨connection, pubkey, programId, some payerPk⟩
        obligationPubkey)
    ∧ (LendingMarket.getLiquidityTokens ⟨connection, pubkey, programId, none⟩ =
      LendingMarket.getLiquidityTokens ⟨connection, pubkey, programId, some payerPk⟩)
    ∧ (LendingMarket.getCollateralTokens ⟨connection, pubkey, programId, none⟩ =
      LendingMarket.getCollateralTokens ⟨connection, pubkey, programId, some payerPk⟩)
    ∧ (LendingMarket.liquidityDeposit ⟨connection, pubkey, programId, none⟩
        liquidityPubkey uiAmount source destination =
      Except.error "Payer not specified")
    ∧ (LendingMarket.createObligation ⟨connection, pubkey, programId, none⟩
        liquidityPubkey collateralPubkey = Except.error "Payer not specified") :=
  ⟨rfl, rfl, rfl, rfl, rfl, rfl, rfl, rfl⟩

/-- C3: for every record kind (Market, Liquidity, Collateral, Obligation)
and every fetched buffer (account present, owned by the program) whose
length differs from the registry span of that kind, the decode operation
returns exactly the size error and never a partially decoded entity. -/
theorem decode_size_mismatch (lm : LendingMarket) (pk : Pubkey) (info : AccountInfo) :
    (lm.connection lm.pubkey = some info → info.owner = lm.programId →
      info.data.length ≠ MarketLayout.span →
      lm.getMarketInfo = Except.error "Invalid market size")
    ∧ (lm.connection pk = some info → info.owner = lm.programId →
      info.data.length ≠ LiquidityLayout.span →
      lm.getLiquidityInfo pk = Except.error "Invalid liquidity size")
    ∧ (lm.connection pk = some info → info.owner = lm.programId →
      info.data.length ≠ CollateralLayout.span →
      lm.getCollateralInfo pk = Except.error "Invalid collateral size")
    ∧ (lm.connection pk = some info → info.owner = lm.programId →
      info.data.length ≠ ObligationLayout.span →
      lm.getObligationInfo pk = Except.error "Invalid obligation size") := by
  refine ⟨?_, ?_, ?_, ?_⟩ <;> intro h1 h2 h3 <;>
    simp [LendingMarket.getMarketInfo, LendingMarket.getLiquidityInfo,
      LendingMarket.getCollateralInfo, LendingMarket.getObligationInfo,
      LendingMarket.getOwnedAccountInfo, bind, Except.bind, h1, h2, h3]

/-- Witness for C3: an empty data buffer (length 0, so span − anything)
owned by the program fails each of the four decoders with its size
error. -/
theorem decode_size_mismatch_witness :
    ([] : List Nat).length ≠ MarketLayout.span
    ∧ LendingMarket.getMarketInfo
        ⟨fun _ => some ⟨[], PROGRAM_ID⟩, Pubkey.base58 "market", PROGRAM_ID, none⟩ =
      Except.error "Invalid market size"
    ∧ LendingMarket.getLiquidityInfo
        ⟨fun _ => some ⟨[], PROGRAM_ID⟩, Pubkey.base58 "market", PROGRAM_ID, none⟩
        (Pubkey.base58 "liquidity") = Except.error "Invalid liquidity size"
    ∧ LendingMarket.getCollateralInfo
        ⟨fun _ => some ⟨[], PROGRAM_ID⟩, Pubkey.base58 "market", PROGRAM_ID, none⟩
        (Pubkey.base58 "collateral") = Except.error "Invalid collateral size"
    ∧ LendingMarket.getObligationInfo
        ⟨fun _ => some ⟨[], PROGRAM_ID⟩, Pubkey.base58 "market", PROGRAM_ID, none⟩
        (Pubkey.base58 "obligation") = Except.error "Invalid obligation size" :=
  ⟨by decide,
    (decode_size_mismatch _ (Pubkey.base58 "liquidity") ⟨[], PROGRAM_ID⟩).1
      rfl rfl (by decide),
    (decode_size_mismatch _ (Pubkey.base58 "liquidity") ⟨[], PROGRAM_ID⟩).2.1
      rfl rfl (by decide),
    (decode_size_mismatch _ (Pubkey.base58 "collateral") ⟨[], PROGRAM_ID⟩).2.2.1
      rfl rfl (by decide),
    (decode_size_mismatch _ (Pubkey.base58 "obligation") ⟨[], PROGRAM_ID⟩).2.2.2
      rfl rfl (by decide)⟩

/-- Counterexample to C4 as stated: decoding a correct-span (114-byte),
correctly-owned Collateral buffer whose status byte is 3 (outside the
enum domain {0, 1, 2}) does NOT fail with a CorruptEnum error — it
succeeds, and the decoded entity's status is 3. -/
theorem status_out_of_range_accepted_cex :
    ((3 : Nat) ≠ 0 ∧ (3 : Nat) ≠ 1 ∧ (3 : Nat) ≠ 2)
    ∧ (1 :: 3 :: List.replicate 112 0).length = CollateralLayout.span
    ∧ Except.map (fun c => c.status)
        (LendingMarket.getCollateralInfo
          ⟨fun _ => some ⟨1 :: 3 :: List.replicate 112 0, PROGRAM_ID⟩,
            Pubkey.base58 "market", PROGRAM_ID, none⟩
          (Pubkey.base58 "collateral")) = Except.ok 3 :=
  ⟨by decide, by decide, rfl⟩

/-- C4 amended: decoding a Liquidity or Collateral buffer of the correct
span and correct owner performs no validation of the status byte — the
decoded entity's status equals the raw byte at offset 1 for every value
of that byte, including values outside the enum domain {0, 1, 2}; no
CorruptEnum failure path exists (the source's `status as …Status` is a
compile-time cast with no runtime check). -/
theorem status_byte_unvalidated (lm : LendingMarket) (pk : Pubkey)
    (info : AccountInfo) (s : Nat) :
    (lm.connection pk = some info → info.owner = lm.programId →
      info.data.length = CollateralLayout.span → info.data.getD 1 0 = s →
      Except.map (fun c => c.status) (lm.getCollateralInfo pk) = Except.ok s)
    ∧ (lm.connection pk = some info → info.owner = lm.programId →
      info.data.length = LiquidityLayout.span → info.data.getD 1 0 = s →
      Except.map (fun l => l.status) (lm.getLiquidityInfo pk) = Except.ok s) := by
  constructor <;> intro h1 h2 h3 h4 <;>
    simp [LendingMarket.getCollateralInfo, LendingMarket.getLiquidityInfo,
      LendingMarket.getOwnedAccountInfo, bind, Except.bind, h1, h2, h3,
      Collateral.fromBuffer, Liquidity.fromBuffer, Except.map] <;>
    simpa using h4

/-- Witness for the amended C4 at status byte 3, with a 114-byte
collateral buffer and a 130-byte liquidity buffer. -/
theorem status_byte_unvalidated_witness :
    (1 :: 3 :: List.replicate 112 0).length = CollateralLayout.span
    ∧ (1 :: 3 :: List.replicate 128 0).length = LiquidityLayout.span
    ∧ Except.map (fun c => c.status)
        (LendingMarket.getCollateralInfo
          ⟨fun _ => some ⟨1 :: 3 :: List.replicate 112 0, PROGRAM_ID⟩,
            Pubkey.base58 "market", PROGRAM_ID, none⟩
          (Pubkey.base58 "collateral")) = Except.ok 3
    ∧ Except.map (fun l => l.status)
        (LendingMarket.getLiquidityInfo
          ⟨fun _ => some ⟨1 :: 3 :: List.replicate 128 0, PROGRAM_ID⟩,
            Pubkey.base58 "market", PROGRAM_ID, none⟩
          (Pubkey.base58 "liquidity")) = Except.ok 3 :=
  ⟨by decide, by decide,
    (status_byte_unvalidated _ (Pubkey.base58 "collateral")
      ⟨1 :: 3 :: List.replicate 112 0, PROGRAM_ID⟩ 3).1 rfl rfl (by decide) (by decide),
    (status_byte_unvalidated _ (Pubkey.base58 "liquidity")
      ⟨1 :: 3 :: List.replicate 128 0, PROGRAM_ID⟩ 3).2 rfl rfl (by decide) (by decide)⟩

/-- Counterexample to C5 as stated: for an account that is both
wrong-sized and wrong-owned, the reported failure is the ownership error,
not the size error — the owner check (inside `getOwnedAccountInfo`) runs
before the span check. -/
theorem owner_error_precedes_size_error_cex :
    (Pubkey.base58 "intruder" ≠ PROGRAM_ID)
    ∧ (([0] : List Nat).length ≠ MarketLayout.span)
    ∧ LendingMarket.getMarketInfo
        ⟨fun _ => some ⟨[0], Pubkey.base58 "intruder"⟩, Pubkey.base58 "market",
          PROGRAM_ID, none⟩ = Except.error "Invalid owner"
    ∧ ("Invalid owner" ≠ "Invalid market size") :=
  ⟨by decide, by decide, rfl, by decide⟩

/-- C5 amended: the decode operation checks the account owner (inside
`getOwnedAccountInfo`) BEFORE the buffer length, so for every input that
is both wrong-owned and wrong-sized the reported failure is the ownership
error, not the size error. -/
theorem owner_checked_before_size (lm : LendingMarket) (pk : Pubkey)
    (info : AccountInfo) :
    (lm.connection lm.pubkey = some info → info.owner ≠ lm.programId →
      info.data.length ≠ MarketLayout.span →
      lm.getMarketInfo = Except.error "Invalid owner")
    ∧ (lm.connection pk = some info → info.owner ≠ lm.programId →
      info.data.length ≠ CollateralLayout.span →
      lm.getCollateralInfo pk = Except.error "Invalid owner") := by
  constructor <;> intro h1 h2 h3 <;>
    simp [LendingMarket.getMarketInfo, LendingMarket.getCollateralInfo,
      LendingMarket.getOwnedAccountInfo, bind, Except.bind, h1, h2]

/-- Witness for the amended C5: a 1-byte buffer owned by an address other
than the program yields the ownership error from both decoders. -/
theorem owner_checked_before_size_witness :
    (Pubkey.base58 "intruder" ≠ PROGRAM_ID)
    ∧ LendingMarket.getMarketInfo
        ⟨fun _ => some ⟨[0], Pubkey.base58 "intruder"⟩, Pubkey.base58 "market",
          PROGRAM_ID, none⟩ = Except.error "Invalid owner"
    ∧ LendingMarket.getCollateralInfo
        ⟨fun _ => some ⟨[0], Pubkey.base58 "intruder"⟩, Pubkey.base58 "market",
          PROGRAM_ID, none⟩ (Pubkey.base58 "collateral") =
      Except.error "Invalid owner" :=
  ⟨by decide,
    (owner_checked_before_size _ (Pubkey.base58 "collateral")
      ⟨[0], Pubkey.base58 "intruder"⟩).1 rfl (by decide) (by decide),
    (owner_checked_before_size _ (Pubkey.base58 "collateral")
      ⟨[0], Pubkey.base58 "intruder"⟩).2 rfl (by decide) (by decide)⟩

/-- Counterexample to C6 as stated: the Collateral registry span is 114
bytes, not 74, so a 74-byte correctly-owned buffer does NOT pass the
Collateral size check — it fails with the size error. -/
theorem collateral_span_not_74_cex :
    CollateralLayout.span = 114
    ∧ CollateralLayout.span ≠ 74
    ∧ LendingMarket.getCollateralInfo
        ⟨fun _ => some ⟨List.replicate 74 0, PROGRAM_ID⟩, Pubkey.base58 "market",
          PROGRAM_ID, none⟩ (Pubkey.base58 "collateral") =
      Except.error "Invalid collateral size" :=
  ⟨by decide, by decide, rfl⟩

/-- C6 amended: the correct span for a Collateral record is 114 bytes
(`u8 + u8 + 32·3 + 8 + 8`); both a 74-byte and a 41-byte buffer fail the
Collateral size check with the size error. -/
theorem collateral_span_114 (lm : LendingMarket) (pk : Pubkey) (info : AccountInfo) :
    CollateralLayout.span = 114
    ∧ (lm.connection pk = some info → info.owner = lm.programId →
      info.data.length = 74 →
      lm.getCollateralInfo pk = Except.error "Invalid collateral size")
    ∧ (lm.connection pk = some info → info.owner = lm.programId →
      info.data.length = 41 →
      lm.getCollateralInfo pk = Except.error "Invalid collateral size") := by
  refine ⟨by decide, ?_, ?_⟩ <;> intro h1 h2 h3 <;>
    simp [LendingMarket.getCollateralInfo, LendingMarket.getOwnedAccountInfo,
      bind, Except.bind, h1, h2, h3, CollateralLayout.span,
      CollateralLayout.fieldSpans]

/-- Witness for the amended C6 with concrete 74-byte and 41-byte
buffers. -/
theorem collateral_span_114_witness :
    (List.replicate 74 0).length = 74
    ∧ (List.replicate 41 0).length = 41
    ∧ LendingMarket.getCollateralInfo
        ⟨fun _ => some ⟨List.replicate 74 0, PROGRAM_ID⟩, Pubkey.base58 "market",
          PROGRAM_ID, none⟩ (Pubkey.base58 "collateral") =
      Except.error "Invalid collateral size"
    ∧ LendingMarket.getCollateralInfo
        ⟨fun _ => some ⟨List.replicate 41 0, PROGRAM_ID⟩, Pubkey.base58 "market",
          PROGRAM_ID, none⟩ (Pubkey.base58 "collateral") =
      Except.error "Invalid collateral size" :=
  ⟨by decide, by decide,
    (collateral_span_114 _ (Pubkey.base58 "collateral")
      ⟨List.replicate 74 0, PROGRAM_ID⟩).2.1 rfl rfl (by decide),
    (collateral_span_114 _ (Pubkey.base58 "collateral")
      ⟨List.replicate 41 0, PROGRAM_ID⟩).2.2 rfl rfl (by decide)⟩

/-- Counterexample to C8 as stated: for a well-formed 49-byte market
buffer whose decoded liquidityTokenCount is `2 ^ 32`, the enumeration
does NOT derive `2 ^ 32` addresses — `Array(n)` throws
`RangeError: Invalid array length` for `n ≥ 2 ^ 32` (and BN `toNumber()`
would assert for counts at and above `2 ^ 53`), so the operation fails
instead of enumerating. -/
theorem pool_enumeration_count_overflow_cex :
    (Market.fromBuffer
      (1 :: (List.replicate 32 0 ++ (leBytes 8 (2 ^ 32) ++ leBytes 8 1)))).liquidityTokens
        = 2 ^ 32
    ∧ (1 :: (List.replicate 32 0 ++ (leBytes 8 (2 ^ 32) ++ leBytes 8 1))).length
        = MarketLayout.span
    ∧ LendingMarket.getLiquidityTokenPubkeys
        ⟨fun _ => some ⟨1 :: (List.replicate 32 0 ++ (leBytes 8 (2 ^ 32) ++ leBytes 8 1)),
            PROGRAM_ID⟩, Pubkey.base58 "market", PROGRAM_ID, none⟩ =
      Except.error "Invalid array length" :=
  ⟨by decide, by decide, rfl⟩

/-- C8 amended: for a market whose decoded liquidityTokenCount `n` and
collateralTokenCount `m` are below `2 ^ 32` (the JavaScript array-length
limit; BN `toNumber()` additionally requires counts below `2 ^ 53`), the
pool enumerations derive exactly `n` (resp. `m`) addresses, the i-th
being the seeded derivation with base the market's derived authority,
seed `"liquidity" ++ decimal i` (resp. `"collateral" ++ decimal i`), and
the program identity; for counts at or above `2 ^ 32` the source throws
instead of enumerating. -/
theorem pool_enumeration_addresses (lm : LendingMarket) (info : AccountInfo)
    (n m : Nat) (h1 : lm.connection lm.pubkey = some info)
    (h2 : info.owner = lm.programId)
    (h3 : info.data.length = MarketLayout.span)
    (h4 : (Market.fromBuffer info.data).liquidityTokens = n)
    (h5 : (Market.fromBuffer info.data).collateralTokens = m)
    (h6 : n < 2 ^ 32) (h7 : m < 2 ^ 32) :
    lm.getLiquidityTokenPubkeys = Except.ok ((List.range n).map fun i =>
        Pubkey.createWithSeed (Pubkey.authority lm.pubkey lm.programId)
          ("liquidity" ++ toString i) lm.programId)
    ∧ ((List.range n).map fun i =>
        Pubkey.createWithSeed (Pubkey.authority lm.pubkey lm.programId)
          ("liquidity" ++ toString i) lm.programId).length = n
    ∧ lm.getCollateralTokenPubkeys = Except.ok ((List.range m).map fun i =>
        Pubkey.createWithSeed (Pubkey.authority lm.pubkey lm.programId)
          ("collateral" ++ toString i) lm.programId)
    ∧ ((List.range m).map fun i =>
        Pubkey.createWithSeed (Pubkey.authority lm.pubkey lm.programId)
          ("collateral" ++ toString i) lm.programId).length = m := by
  have hmkt : lm.getMarketInfo = Except.ok (Market.fromBuffer info.data) := by
    simp [LendingMarket.getMarketInfo, LendingMarket.getOwnedAccountInfo,
      bind, Except.bind, h1, h2, h3]
  have h6a : n < 4294967296 := Nat.lt_of_lt_of_le h6 (by norm_num)
  have h7a : m < 4294967296 := Nat.lt_of_lt_of_le h7 (by norm_num)
  have h6b : n < 9007199254740992 := Nat.lt_of_lt_of_le h6 (by norm_num)
  have h7b : m < 9007199254740992 := Nat.lt_of_lt_of_le h7 (by norm_num)
  refine ⟨?_, by simp, ?_, by simp⟩
  · simp [LendingMarket.getLiquidityTokenPubkeys, bind, Except.bind, hmkt, h4,
      bnToNumber, jsArrayRange, h6a, h6b]
  · simp [LendingMarket.getCollateralTokenPubkeys, bind, Except.bind, hmkt, h5,
      bnToNumber, jsArrayRange, h7a, h7b]

/-- Witness for the amended C8: a concrete market record with
liquidityTokenCount 2 and collateralTokenCount 1 (both below the
`2 ^ 32` bound) enumerates the seeded addresses liquidity0, liquidity1
and collateral0. -/
theorem pool_enumeration_addresses_witness :
    (Market.fromBuffer
      (1 :: (List.replicate 32 0 ++ (leBytes 8 2 ++ leBytes 8 1)))).liquidityTokens = 2
    ∧ LendingMarket.getLiquidityTokenPubkeys
        ⟨fun _ => some ⟨1 :: (List.replicate 32 0 ++ (leBytes 8 2 ++ leBytes 8 1)),
            PROGRAM_ID⟩, Pubkey.base58 "market", PROGRAM_ID, none⟩ =
      Except.ok ((List.range 2).map fun i =>
        Pubkey.createWithSeed (Pubkey.authority (Pubkey.base58 "market") PROGRAM_ID)
          ("liquidity" ++ toString i) PROGRAM_ID)
    ∧ LendingMarket.getCollateralTokenPubkeys
        ⟨fun _ => some ⟨1 :: (List.replicate 32 0 ++ (leBytes 8 2 ++ leBytes 8 1)),
            PROGRAM_ID⟩, Pubkey.base58 "market", PROGRAM_ID, none⟩ =
      Except.ok ((List.range 1).map fun i =>
        Pubkey.createWithSeed (Pubkey.authority (Pubkey.base58 "market") PROGRAM_ID)
          ("collateral" ++ toString i) PROGRAM_ID) :=
  ⟨by decide,
    (pool_enumeration_addresses _
      ⟨1 :: (List.replicate 32 0 ++ (leBytes 8 2 ++ leBytes 8 1)), PROGRAM_ID⟩ 2 1
      rfl rfl (by decide) (by decide) (by decide) (by decide) (by decide)).1,
    (pool_enumeration_addresses _
      ⟨1 :: (List.replicate 32 0 ++ (leBytes 8 2 ++ leBytes 8 1)), PROGRAM_ID⟩ 2 1
      rfl rfl (by decide) (by decide) (by decide) (by decide) (by decide)).2.2.1⟩

end Everlend
